import Mathlib

/-
Verification of the gdal-extras conversion driver (gdal_convert.py).

The file shallowly embeds the source module: pathlib paths become explicit
records of (parent components, stem, suffix); the external raster library
(GDAL) becomes an environment of functions (driver lookup, dataset open);
float values carried through unchanged by the code are modelled as rationals;
Python exceptions become an explicit error type threaded through Except.
-/

set_option autoImplicit false

namespace GdalConvert

/-- Model of a pathlib.Path value: directory components of the parent, the
stem of the final component, and the suffix of the final component
(including the leading dot, or the empty string when there is none). -/
structure PyPath where
  parent : List String
  stem : String
  suffix : String
  deriving DecidableEq, Repr

/-- Full component list of a path: parent components then the final name. -/
def PyPath.components (p : PyPath) : List String :=
  p.parent ++ [p.stem ++ p.suffix]

/-- Joining a directory path with a fresh final component, as the / operator
of pathlib does. -/
def PyPath.child (dir : PyPath) (stem : String) (suffix : String) : PyPath :=
  { parent := dir.components, stem := stem, suffix := suffix }

/-- Model of one raster band of a dataset: the statistics GetStatistics
reports and the name of the band data type. -/
structure Band where
  statMin : ℚ
  statMax : ℚ
  statMean : ℚ
  statStd : ℚ
  dataTypeName : String
  deriving DecidableEq, Repr

/-- Model of a GDAL driver: its description string, whether it reports the
raster capability metadata item, and the optional DMD_EXTENSION entry of its
metadata dictionary. -/
structure Driver where
  description : String
  isRaster : Bool
  dmdExtension : Option String
  deriving DecidableEq, Repr

/-- Model of an open GDAL dataset: its driver and its bands (RasterCount is
the length of the band list). -/
structure Dataset where
  driver : Driver
  bands : List Band
  deriving DecidableEq, Repr

/-- Python exceptions raised by the module, by kind.  The two KeyError sites
are distinguished by the dictionary that was indexed. -/
inductive Err where
  | assertionError (msg : String)
  | keyErrorBitrange (key : String)
  | keyErrorTypeDict (key : String)
  | indexError
  | typeError
  | attributeError
  | unboundLocalError
  | valueError
  deriving DecidableEq, Repr

deriving instance DecidableEq for Except

/-- Environment supplied by the external raster library. -/
structure GDALEnv where
  getDriverByName : String → Option Driver
  openDS : PyPath → Option Dataset

/-- Environment supplied by the filesystem, as pathlib queries it.  toPath
interprets a command line string as a path; rglob lists every entry under a
directory recursively. -/
structure FSEnv where
  toPath : String → PyPath
  pexists : PyPath → Bool
  is_dir : PyPath → Bool
  is_file : PyPath → Bool
  rglob : PyPath → List PyPath

/-- GDAL data type codes used by the TYPE_DICT table. -/
def GDT_Byte : Nat := 1

def GDT_UInt16 : Nat := 2

def GDT_Int16 : Nat := 3

def GDT_UInt32 : Nat := 4

def GDT_Int32 : Nat := 5

def GDT_Float32 : Nat := 6

def GDT_Float64 : Nat := 7

/-- The BITRANGE dictionary of the source, as a lookup function; a missing
key is a KeyError at the call site. -/
def BITRANGE (key : String) : Option (List ℚ) :=
  if key = "Byte" then some [0, 255]
  else if key = "UInt8" then some [0, 255]
  else if key = "UInt16" then some [0, 65535]
  else if key = "UInt32" then some [0, 4294967295]
  else if key = "Int16" then some [-32768, 32767]
  else if key = "Int32" then some [-2147483648, 2147483647]
  else if key = "Float32" then some [0, 1]
  else if key = "Float64" then some [0, 1]
  else none

/-- The TYPE_DICT dictionary of the source, as a lookup function. -/
def TYPE_DICT (key : String) : Option Nat :=
  if key = "Byte" then some GDT_Byte
  else if key = "UInt8" then some GDT_Byte
  else if key = "UInt16" then some GDT_UInt16
  else if key = "UInt32" then some GDT_UInt32
  else if key = "Int16" then some GDT_Int16
  else if key = "Int32" then some GDT_Int32
  else if key = "Float32" then some GDT_Float32
  else if key = "Float64" then some GDT_Float64
  else none

/-- Lowercasing as the Python str.lower method does on the ascii strings the
module compares (kernel reducible, unlike the library toLower). -/
def pyLower (s : String) : String :=
  String.mk (s.data.map Char.toLower)

/-- Python list indexing: a nonnegative index counts from the front, a
negative index counts from the back, and an out of range index is an
IndexError (none). -/
def pyGet {α : Type} (l : List α) (i : Int) : Option α :=
  if 0 ≤ i then l.get? i.toNat
  else if 0 ≤ (l.length : Int) + i then l.get? ((l.length : Int) + i).toNat
  else none

/-- Fueled worker for Python zip over a list of iterables: emit a column of
heads while no row is exhausted.  The fuel is the length of the first row,
which bounds the number of columns zip can produce. -/
def pyZipAux : Nat → List (List ℚ) → List (List ℚ)
  | 0, _ => []
  | n + 1, ls =>
    if ls.any (fun row => row.isEmpty) then []
    else ls.map (fun row => row.headD 0) :: pyZipAux n (ls.map (fun row => row.tail))

/-- Python zip with argument unpacking, zip of a list of rows: the transpose
truncated at the shortest row; zip of no rows is empty. -/
def pyZip (ls : List (List ℚ)) : List (List ℚ) :=
  match ls with
  | [] => []
  | r0 :: _ => pyZipAux r0.length ls

/-- Embedding of getScaleParams: gather the four statistics of every band,
transpose with zip, unpack the four columns (a ValueError when the transpose
does not have exactly four rows, which happens for a dataset with no bands),
pair the min and max columns, and append the output range to each pair. -/
def getScaleParams (ds : Dataset) (outputRange : List ℚ) : Except Err (List (List ℚ)) :=
  match pyZip (ds.bands.map (fun b => [b.statMin, b.statMax, b.statMean, b.statStd])) with
  | [vmin, vmax, _vmean, _vstd] =>
    Except.ok (((vmin.zip vmax).map (fun s => [s.1, s.2])).map (fun s => s ++ outputRange))
  | _ => Except.error Err.valueError

/-- The default band list 1 .. RasterCount used when no bands are requested. -/
def defaultBands (ds : Dataset) : List Int :=
  (List.range ds.bands.length).map (fun i => (i : Int) + 1)

/-- The list comprehension selecting one scale entry per requested band via
Python indexing; an out of range index raises IndexError. -/
def selectScale (scaleParams : List (List ℚ)) : List Int → Except Err (List (List ℚ))
  | [] => Except.ok []
  | i :: rest =>
    match pyGet scaleParams (i - 1) with
    | none => Except.error Err.indexError
    | some s =>
      match selectScale scaleParams rest with
      | Except.error e => Except.error e
      | Except.ok others => Except.ok (s :: others)

/-- The translate options record handed to the library translate call. -/
structure TranslateOptions where
  format : String
  outputType : Nat
  bandList : List Int
  scaleParams : List (List ℚ)
  deriving DecidableEq, Repr

/-- One issued library translate call: the destination path and the options. -/
structure TranslateCall where
  dest : PyPath
  options : TranslateOptions
  deriving DecidableEq, Repr

/-- The band list defaulting of setupOptions: Python treats None and an
empty list alike as falsy, both fall back to all bands 1 .. RasterCount. -/
def resolveBands (bands : Option (List Int)) (ds : Dataset) : List Int :=
  match bands with
  | none => defaultBands ds
  | some [] => defaultBands ds
  | some bs => bs

/-- Embedding of setupOptions: build the full scale list, default the band
list to all bands when none (or an empty list) is given, select the scale
entries of the requested bands, and look the output type up in TYPE_DICT. -/
def setupOptions (ds : Dataset) (outputFormat : String) (outputType : String)
    (outputRange : List ℚ) (bands : Option (List Int)) : Except Err TranslateOptions :=
  match getScaleParams ds outputRange with
  | Except.error e => Except.error e
  | Except.ok scaleParams0 =>
    match selectScale scaleParams0 (resolveBands bands ds) with
    | Except.error e => Except.error e
    | Except.ok scaleParams =>
      match TYPE_DICT outputType with
      | none => Except.error (Err.keyErrorTypeDict outputType)
      | some code =>
        Except.ok { format := outputFormat, outputType := code,
                    bandList := resolveBands bands ds, scaleParams := scaleParams }

/-- Embedding of get_dtype: open the input and read the data type name of
band 1; a failed open or a missing band dereferences None. -/
def get_dtype (g : GDALEnv) (input : PyPath) : Except Err String :=
  match g.openDS input with
  | none => Except.error Err.attributeError
  | some ds =>
    match ds.bands.head? with
    | none => Except.error Err.attributeError
    | some b => Except.ok b.dataTypeName

/-- Embedding of get_extension.  The local variable ext of the source is only
assigned inside the raster capability branch, so a driver without the raster
capability reaches the truthiness test with ext unbound, an UnboundLocalError;
a raster driver with no (or an empty) DMD_EXTENSION entry, other than the COG
special case, raises the AssertionError of the source. -/
def get_extension (g : GDALEnv) (input : PyPath) (format : String) : Except Err String :=
  match (if !(pyLower format == "native") then Except.ok (g.getDriverByName format)
         else match g.openDS input with
              | none => Except.error Err.attributeError
              | some ds => Except.ok (some ds.driver) : Except Err (Option Driver)) with
  | Except.error e => Except.error e
  | Except.ok none =>
    Except.error (Err.assertionError "Invalid Driver. Refer GDAL documentation for accepted list of raster drivers")
  | Except.ok (some drv) =>
    match (if drv.isRaster then some (if format == "COG" then some "tif" else drv.dmdExtension)
           else none : Option (Option String)) with
    | none => Except.error Err.unboundLocalError
    | some extVal =>
      match extVal with
      | none => Except.error (Err.assertionError "Specified output format is not a raster format")
      | some e =>
        if e == "" then Except.error (Err.assertionError "Specified output format is not a raster format")
        else Except.ok e

/-- Worker of the directory branch of parse_files: one output path per kept
input file, with the extension resolved per file. -/
def buildOutpaths (g : GDALEnv) (format : String) (odir : PyPath) :
    List PyPath → Except Err (List PyPath)
  | [] => Except.ok []
  | f :: rest =>
    match get_extension g f format with
    | Except.error e => Except.error e
    | Except.ok ext =>
      match buildOutpaths g format odir rest with
      | Except.error e => Except.error e
      | Except.ok outs => Except.ok (odir.child (f.stem ++ "_converted") ("." ++ ext) :: outs)

/-- Embedding of parse_files.  A None input (or, in the directory branch, a
None output) fails inside the Path constructor with a TypeError; the leading
assert requires the input to exist and the input string to be nonempty; a
directory input requires the output to be an existing directory and keeps
every recursively found entry that is neither a directory nor an .xml file;
a single file input defaults the output to converted dot ext next to the
input and rejects an .xml input; an input that is neither a directory nor a
file leaves the result names unbound. -/
def parse_files (fs : FSEnv) (g : GDALEnv) (input output : Option String)
    (format : String) : Except Err (List PyPath × List PyPath) :=
  match input with
  | none => Except.error Err.typeError
  | some instr =>
    if fs.pexists (fs.toPath instr) && !(instr == "") then
      if fs.is_dir (fs.toPath instr) then
        match output with
        | none => Except.error Err.typeError
        | some ostr =>
          if fs.is_dir (fs.toPath ostr) then
            match buildOutpaths g format (fs.toPath ostr)
                ((fs.rglob (fs.toPath instr)).filter
                  (fun f => !(pyLower f.suffix == ".xml" || fs.is_dir f))) with
            | Except.error e => Except.error e
            | Except.ok outpaths =>
              Except.ok ((fs.rglob (fs.toPath instr)).filter
                (fun f => !(pyLower f.suffix == ".xml" || fs.is_dir f)), outpaths)
          else Except.error (Err.assertionError "output must be an existing directory")
      else if fs.is_file (fs.toPath instr) then
        match get_extension g (fs.toPath instr) format with
        | Except.error e => Except.error e
        | Except.ok ext =>
          if pyLower (fs.toPath instr).suffix == ".xml" then
            Except.error (Err.assertionError "input must not be an xml file")
          else
            Except.ok ([fs.toPath instr],
              match (match output with
                     | none => none
                     | some ostr => if ostr == "" then none else some (fs.toPath ostr)) with
              | none => [{ parent := (fs.toPath instr).parent, stem := "converted",
                           suffix := "." ++ ext }]
              | some op => [op])
      else Except.error Err.unboundLocalError
    else Except.error (Err.assertionError "input must exist and be a nonempty string")

/-- Parsed command line arguments, after argparse. -/
structure Args where
  input : Option String
  bands : Option String
  output : Option String
  format : String
  dtype : String
  range : Option (ℚ × ℚ)
  deriving Repr

/-- Parsing a comma separated band string into integers; a fragment that is
not an integer is a ValueError. -/
def pyIntList : List String → Option (List Int)
  | [] => some []
  | b :: rest =>
    match b.trim.toInt? with
    | none => none
    | some i => (pyIntList rest).map (fun l => i :: l)

/-- The bands_out computation of main: None (or an empty string, which is
falsy) yields no band list, otherwise split on commas and parse integers. -/
def parse_bands (bands : Option String) : Except Err (Option (List Int)) :=
  match bands with
  | none => Except.ok none
  | some s =>
    if s == "" then Except.ok none
    else
      match pyIntList (s.splitOn ",") with
      | none => Except.error Err.valueError
      | some l => Except.ok (some l)

/-- Embedding of the per file loop of main.  The format and dtype arguments
are fields of the mutable args namespace in the source: when they are
resolved from Native to a concrete value for one file, the assignment
persists, so the recursive call receives the resolved values. -/
def mainLoop (g : GDALEnv) (fmt dtype : String) (range : Option (ℚ × ℚ))
    (bands_out : Option (List Int)) : List (PyPath × PyPath) → Except Err (List TranslateCall)
  | [] => Except.ok []
  | (entry, out) :: rest =>
    match g.openDS entry with
    | none => Except.error Err.attributeError
    | some ds =>
      let fmt1 := if pyLower fmt == "native" then ds.driver.description else fmt
      match (if pyLower dtype == "native" then get_dtype g entry
             else Except.ok dtype : Except Err String) with
      | Except.error e => Except.error e
      | Except.ok dtype1 =>
        match (match range with
               | some lohi => Except.ok [lohi.1, lohi.2]
               | none =>
                 match BITRANGE dtype1 with
                 | none => Except.error (Err.keyErrorBitrange dtype1)
                 | some r => Except.ok r : Except Err (List ℚ)) with
        | Except.error e => Except.error e
        | Except.ok outputRange =>
          match setupOptions ds fmt1 dtype1 outputRange bands_out with
          | Except.error e => Except.error e
          | Except.ok opts =>
            match mainLoop g fmt1 dtype1 range bands_out rest with
            | Except.error e => Except.error e
            | Except.ok calls => Except.ok ({ dest := out, options := opts } :: calls)

/-- Embedding of main: resolve the files, parse the band string, then run the
per file loop over the zipped job list, collecting the translate calls the
run issues. -/
def main (fs : FSEnv) (g : GDALEnv) (args : Args) : Except Err (List TranslateCall) :=
  match parse_files fs g args.input args.output args.format with
  | Except.error e => Except.error e
  | Except.ok (files, outfiles) =>
    match parse_bands args.bands with
    | Except.error e => Except.error e
    | Except.ok bands_out =>
      mainLoop g args.format args.dtype args.range bands_out (files.zip outfiles)

/-
Concrete example environments used by evaluated theorems and witnesses.
-/

/-- Directory path used as the input directory of examples. -/
def inDir : PyPath := { parent := [], stem := "in", suffix := "" }

/-- Directory path used as the output directory of examples. -/
def outDir : PyPath := { parent := [], stem := "out", suffix := "" }

/-- A GeoTIFF file inside the example input directory. -/
def aTif : PyPath := { parent := ["in"], stem := "a", suffix := ".tif" }

/-- A PNG file inside the example input directory. -/
def bPng : PyPath := { parent := ["in"], stem := "b", suffix := ".png" }

/-- An xml sidecar file inside the example input directory. -/
def sXml : PyPath := { parent := ["in"], stem := "a", suffix := ".XML" }

/-- A standalone GeoTIFF file used by single file examples. -/
def cFile : PyPath := { parent := ["data"], stem := "c", suffix := ".tif" }

/-- Example GeoTIFF driver. -/
def gtiffDrv : Driver := { description := "GTiff", isRaster := true, dmdExtension := some "tif" }

/-- Example PNG driver. -/
def pngDrv : Driver := { description := "PNG", isRaster := true, dmdExtension := some "png" }

/-- Example driver without the raster capability. -/
def vecDrv : Driver := { description := "VEC", isRaster := false, dmdExtension := some "shp" }

/-- Example raster driver that declares no extension. -/
def noExtDrv : Driver := { description := "MEM", isRaster := true, dmdExtension := none }

/-- Band with the given observed range. -/
def mkBand (m M : ℚ) : Band :=
  { statMin := m, statMax := M, statMean := 50, statStd := 5, dataTypeName := "Byte" }

/-- Example GeoTIFF dataset with one band of observed range 10 to 200. -/
def dsA : Dataset := { driver := gtiffDrv, bands := [mkBand 10 200] }

/-- Example PNG dataset with one band of observed range 0 to 100. -/
def dsB : Dataset := { driver := pngDrv, bands := [mkBand 0 100] }

/-- Example five band dataset, band k having observed range k to 10 + k. -/
def ds5 : Dataset :=
  { driver := gtiffDrv,
    bands := [mkBand 1 11, mkBand 2 12, mkBand 3 13, mkBand 4 14, mkBand 5 15] }

/-- Example three band dataset. -/
def ds3 : Dataset :=
  { driver := gtiffDrv, bands := [mkBand 1 11, mkBand 2 12, mkBand 3 13] }

/-- Example GDAL environment. -/
def exG : GDALEnv :=
  { getDriverByName := fun nm =>
      if nm = "GTiff" then some gtiffDrv
      else if nm = "PNG" then some pngDrv
      else if nm = "VEC" then some vecDrv
      else if nm = "MEM" then some noExtDrv
      else none
    openDS := fun p =>
      if p = aTif then some dsA
      else if p = bPng then some dsB
      else if p = cFile then some dsA
      else none }

/-- Example filesystem: a directory in holding a.tif, b.png and a.XML, a
directory out, and a standalone file data/c.tif. -/
def exFS : FSEnv :=
  { toPath := fun s =>
      if s = "in" then inDir
      else if s = "out" then outDir
      else if s = "data/c.tif" then cFile
      else { parent := [], stem := s, suffix := "" }
    pexists := fun p => decide (p = inDir) || decide (p = outDir) || decide (p = aTif)
      || decide (p = bPng) || decide (p = sXml) || decide (p = cFile)
    is_dir := fun p => decide (p = inDir) || decide (p = outDir)
    is_file := fun p => decide (p = aTif) || decide (p = bPng) || decide (p = sXml)
      || decide (p = cFile)
    rglob := fun p => if p = inDir then [aTif, sXml, bPng] else [] }

/-- Arguments of the C1 scenario: a mixed format directory converted with
format Native. -/
def argsC1 : Args :=
  { input := some "in", bands := none, output := some "out",
    format := "Native", dtype := "Byte", range := none }

/-- Arguments of the C7 counterexample scenario: an unrecognized dtype
together with an explicit output range. -/
def argsC7 : Args :=
  { input := some "data/c.tif", bands := none, output := none,
    format := "GTiff", dtype := "Foo", range := some (0, 1000) }

/-- Arguments of the C4 witness scenario: an explicit output range. -/
def argsC4 : Args :=
  { input := some "data/c.tif", bands := none, output := none,
    format := "GTiff", dtype := "Byte", range := some (0, 1000) }

/-
Shared lemmas about the list helpers.
-/

/-- Lookup below the length is some, phrased through getD. -/
theorem get?_eq_some_getD {α : Type} (l : List α) (n : Nat) (d : α) (hn : n < l.length) :
    l.get? n = some (l.getD n d) := by
  cases hg : l.get? n with
  | none =>
    have := List.get?_eq_none.mp hg
    omega
  | some a =>
    have : l.getD n d = a := by
      rw [List.getD_eq_get?, hg]
      rfl
    rw [this]

/-- Python indexing at a nonnegative in range index reads from the front. -/
theorem pyGet_nonneg {α : Type} (l : List α) (i : Int) (d : α)
    (h0 : 0 ≤ i) (hlt : i < (l.length : Int)) :
    pyGet l i = some (l.getD i.toNat d) := by
  unfold pyGet
  rw [if_pos h0]
  exact get?_eq_some_getD l i.toNat d (by omega)

/-- Python indexing at -1 reads the last element of a nonempty list. -/
theorem pyGet_neg_one {α : Type} (l : List α) (d : α) (h : l ≠ []) :
    pyGet l (-1) = some (l.getD (l.length - 1) d) := by
  have hpos : 0 < l.length := List.length_pos.mpr h
  unfold pyGet
  rw [if_neg (by omega), if_pos (by omega)]
  have hco : (((l.length : Int)) + (-1)).toNat = l.length - 1 := by omega
  rw [hco]
  exact get?_eq_some_getD l (l.length - 1) d (by omega)

/-- A successfully indexed element is a member of the list. -/
theorem pyGet_mem {α : Type} (l : List α) (i : Int) (x : α)
    (h : pyGet l i = some x) : x ∈ l := by
  unfold pyGet at h
  split at h
  · exact List.get?_mem h
  · split at h
    · exact List.get?_mem h
    · exact absurd h (by simp)

/-- The fueled zip computes the transpose when every row has length equal to
the fuel and there is at least one row. -/
theorem pyZipAux_transpose (n : Nat) :
    ∀ ls : List (List ℚ), ls ≠ [] → (∀ row ∈ ls, row.length = n) →
    pyZipAux n ls = (List.range n).map (fun i => ls.map (fun row => row.getD i 0)) := by
  induction n with
  | zero => intro ls _ _; rfl
  | succ n ih =>
    intro ls hne hlen
    have hany : ls.any (fun row => row.isEmpty) = false := by
      rw [List.any_eq_false]
      intro row hrow
      have hl := hlen row hrow
      cases row with
      | nil => simp at hl
      | cons a t => simp
    have hstep : pyZipAux (n + 1) ls =
        ls.map (fun row => row.headD 0) :: pyZipAux n (ls.map (fun row => row.tail)) := by
      rw [pyZipAux, hany]
      rfl
    rw [hstep]
    have htne : ls.map (fun row => row.tail) ≠ [] := by
      intro hc
      exact hne (List.map_eq_nil_iff.mp hc)
    have htlen : ∀ row ∈ ls.map (fun row => row.tail), row.length = n := by
      intro row hrow
      obtain ⟨r0, hr0, hr0eq⟩ := List.mem_map.mp hrow
      have := hlen r0 hr0
      rw [← hr0eq]
      simp [List.length_tail, this]
    rw [ih (ls.map (fun row => row.tail)) htne htlen]
    rw [List.range_succ_eq_map, List.map_cons, List.map_map]
    simp only [List.map_map, Function.comp]
    congr 1
    · apply List.map_congr_left
      intro row hrow
      have hl := hlen row hrow
      cases row with
      | nil => simp at hl
      | cons a t => rfl
    · apply List.map_congr_left
      intro i _
      apply List.map_congr_left
      intro row hrow
      have hl := hlen row hrow
      cases row with
      | nil => simp at hl
      | cons a t => rfl

/-- The zip of the per band statistics rows of a nonempty band list is
exactly the four statistic columns. -/
theorem pyZip_stats (l : List Band) (hne : l ≠ []) :
    pyZip (l.map (fun b => [b.statMin, b.statMax, b.statMean, b.statStd])) =
      [l.map (fun b => b.statMin), l.map (fun b => b.statMax),
       l.map (fun b => b.statMean), l.map (fun b => b.statStd)] := by
  have hmapne : l.map (fun b => [b.statMin, b.statMax, b.statMean, b.statStd]) ≠ [] := by
    intro hc
    exact hne (List.map_eq_nil_iff.mp hc)
  have hlen : ∀ row ∈ l.map (fun b => [b.statMin, b.statMax, b.statMean, b.statStd]),
      row.length = 4 := by
    intro row hrow
    obtain ⟨b, _, hbeq⟩ := List.mem_map.mp hrow
    rw [← hbeq]
    rfl
  have hzip : pyZip (l.map (fun b => [b.statMin, b.statMax, b.statMean, b.statStd])) =
      pyZipAux 4 (l.map (fun b => [b.statMin, b.statMax, b.statMean, b.statStd])) := by
    cases l with
    | nil => exact absurd rfl hne
    | cons b bs => rfl
  rw [hzip, pyZipAux_transpose 4 _ hmapne hlen]
  simp only [List.map_map]
  rfl

/-- getScaleParams of a dataset with at least one band is, per band, the
observed min and max followed by the output range. -/
theorem getScaleParams_eq (ds : Dataset) (r : List ℚ) (h : ds.bands ≠ []) :
    getScaleParams ds r =
      Except.ok (ds.bands.map (fun b => [b.statMin, b.statMax] ++ r)) := by
  unfold getScaleParams
  rw [pyZip_stats ds.bands h]
  show Except.ok
      ((((ds.bands.map (fun b => b.statMin)).zip (ds.bands.map (fun b => b.statMax))).map
        (fun s => [s.1, s.2])).map (fun s => s ++ r)) =
    Except.ok (ds.bands.map (fun b => [b.statMin, b.statMax] ++ r))
  rw [List.zip_map', List.map_map, List.map_map]
  rfl

/-- The selection comprehension maps a pointwise description of the Python
indexing over the band list. -/
theorem selectScale_eq (l : List (List ℚ)) (g : Int → List ℚ) (bs : List Int)
    (h : ∀ b ∈ bs, pyGet l (b - 1) = some (g b)) :
    selectScale l bs = Except.ok (bs.map g) := by
  induction bs with
  | nil => rfl
  | cons b t ih =>
    have hb := h b (List.mem_cons_self b t)
    have ht := ih (fun x hx => h x (List.mem_cons_of_mem b hx))
    unfold selectScale
    rw [hb, ht]
    rfl

/-- C3: for every open dataset (with at least one band, otherwise the
statistics unpacking itself raises) and target output range lo to hi, the
scale parameter builder produces, for each band in order, the 4-tuple of the
observed min and max of that band followed by lo and hi. -/
theorem C3_scale_tuple_per_band (ds : Dataset) (lo hi : ℚ) (h : ds.bands ≠ []) :
    getScaleParams ds [lo, hi] =
      Except.ok (ds.bands.map (fun b => [b.statMin, b.statMax, lo, hi])) := by
  rw [getScaleParams_eq ds [lo, hi] h]
  rfl

/-- C3 witness: a band with observed range 10 to 200 and output type Byte
with no explicit range (so BITRANGE yields 0 to 255) gets the scale tuple
10, 200, 0, 255. -/
theorem C3_witness :
    BITRANGE "Byte" = some [0, 255] ∧
    getScaleParams dsA [0, 255] = Except.ok [[10, 200, 0, 255]] :=
  ⟨rfl, C3_scale_tuple_per_band dsA 0 255 (by decide)⟩

/-- C2: for every dataset and requested band list of 1-based indices within
1 .. RasterCount, setupOptions succeeds and hands the translate call exactly
the requested band list, and one scale entry per requested band, selected
from the per band scale list in the order of the request. -/
theorem C2_band_subset_selection (ds : Dataset) (fmt dtype : String) (r : List ℚ)
    (code : Nat) (bs : List Int) (hbs : bs ≠ [])
    (hall : ∀ b ∈ bs, 1 ≤ b ∧ b ≤ (ds.bands.length : Int))
    (hcode : TYPE_DICT dtype = some code) :
    setupOptions ds fmt dtype r (some bs) =
      Except.ok { format := fmt, outputType := code, bandList := bs,
                  scaleParams := bs.map (fun b =>
                    (ds.bands.map (fun band => [band.statMin, band.statMax] ++ r)).getD
                      (b - 1).toNat []) } := by
  have hnil : ds.bands ≠ [] := by
    obtain ⟨b0, hb0⟩ := List.exists_mem_of_ne_nil bs hbs
    have h1 := (hall b0 hb0).1
    have h2 := (hall b0 hb0).2
    intro hc
    rw [hc] at h2
    simp only [List.length_nil, Nat.cast_zero] at h2
    omega
  cases bs with
  | nil => exact absurd rfl hbs
  | cons b t =>
    have hsel : selectScale (ds.bands.map (fun band => [band.statMin, band.statMax] ++ r))
        (b :: t) =
        Except.ok ((b :: t).map (fun x =>
          (ds.bands.map (fun band => [band.statMin, band.statMax] ++ r)).getD
            (x - 1).toNat [])) := by
      apply selectScale_eq
      intro x hx
      have h1 := (hall x hx).1
      have h2 := (hall x hx).2
      apply pyGet_nonneg
      · omega
      · rw [List.length_map]
        omega
    simp only [setupOptions, resolveBands, getScaleParams_eq ds r hnil, hsel, hcode]

/-- C2 witness: bands 3 and 1 of a five band dataset yield band list 3, 1
and the scale entries of band 3 then band 1, two entries in that order. -/
theorem C2_witness :
    setupOptions ds5 "GTiff" "Byte" [0, 255] (some [3, 1]) =
      Except.ok { format := "GTiff", outputType := 1, bandList := [3, 1],
                  scaleParams := [[3, 13, 0, 255], [1, 11, 0, 255]] } :=
  C2_band_subset_selection ds5 "GTiff" "Byte" [0, 255] 1 [3, 1]
    (by decide) (by decide) rfl

/-- C10: requested band indices are not validated: a requested band index 0
does not raise; the Python expression scaleParams with index i - 1 turns it
into index -1, the scale entry of the last band, so the translate options
pair band 0 with the observed range of the last band. -/
theorem C10_band_zero_wraps_to_last (ds : Dataset) (fmt dtype : String) (r : List ℚ)
    (code : Nat) (bs : List Int) (h0 : (0 : Int) ∈ bs)
    (hall : ∀ b ∈ bs, 0 ≤ b ∧ b ≤ (ds.bands.length : Int))
    (hn : ds.bands ≠ []) (hcode : TYPE_DICT dtype = some code) :
    setupOptions ds fmt dtype r (some bs) =
      Except.ok { format := fmt, outputType := code, bandList := bs,
                  scaleParams := bs.map (fun b =>
                    if b = 0 then
                      (ds.bands.map (fun band => [band.statMin, band.statMax] ++ r)).getD
                        (ds.bands.length - 1) []
                    else
                      (ds.bands.map (fun band => [band.statMin, band.statMax] ++ r)).getD
                        (b - 1).toNat []) } := by
  have hbs : bs ≠ [] := List.ne_nil_of_mem h0
  have hfullne : ds.bands.map (fun band => [band.statMin, band.statMax] ++ r) ≠ [] := by
    intro hc
    exact hn (List.map_eq_nil_iff.mp hc)
  cases bs with
  | nil => exact absurd rfl hbs
  | cons b t =>
    have hsel : selectScale (ds.bands.map (fun band => [band.statMin, band.statMax] ++ r))
        (b :: t) =
        Except.ok ((b :: t).map (fun x =>
          if x = 0 then
            (ds.bands.map (fun band => [band.statMin, band.statMax] ++ r)).getD
              (ds.bands.length - 1) []
          else
            (ds.bands.map (fun band => [band.statMin, band.statMax] ++ r)).getD
              (x - 1).toNat [])) := by
      apply selectScale_eq
      intro x hx
      have h1 := (hall x hx).1
      have h2 := (hall x hx).2
      by_cases hxz : x = 0
      · subst hxz
        have e1 : ((0 : Int) - 1) = -1 := by decide
        rw [e1, pyGet_neg_one _ ([] : List ℚ) hfullne, List.length_map]
        simp
      · rw [if_neg hxz]
        apply pyGet_nonneg
        · omega
        · rw [List.length_map]
          omega
    simp only [setupOptions, resolveBands, getScaleParams_eq ds r hn, hsel, hcode]

/-- C10 witness: requesting band 0 on a three band dataset succeeds and
pairs band 0 with the scale entry of band 3, the last band. -/
theorem C10_witness :
    setupOptions ds3 "GTiff" "Byte" [0, 255] (some [0]) =
      Except.ok { format := "GTiff", outputType := 1, bandList := [0],
                  scaleParams := [[3, 13, 0, 255]] } :=
  C10_band_zero_wraps_to_last ds3 "GTiff" "Byte" [0, 255] 1 [0]
    (by decide) (by decide) (by decide) rfl

/-- C5: a single file input with no output given resolves to exactly one job
whose output path is converted dot ext inside the parent directory of the
input, with the extension obtained from the extension resolver for the
requested format (which, for Native, reads the driver of the input file). -/
theorem C5_single_file_default_output (fs : FSEnv) (g : GDALEnv) (s format ext : String)
    (hex : fs.pexists (fs.toPath s) = true) (hne : s ≠ "")
    (hnd : fs.is_dir (fs.toPath s) = false) (hf : fs.is_file (fs.toPath s) = true)
    (hxml : pyLower (fs.toPath s).suffix ≠ ".xml")
    (hext : get_extension g (fs.toPath s) format = Except.ok ext) :
    parse_files fs g (some s) none format =
      Except.ok ([fs.toPath s],
        [{ parent := (fs.toPath s).parent, stem := "converted", suffix := "." ++ ext }]) := by
  have hs : (s == "") = false := beq_eq_false_iff_ne.mpr hne
  have hx : (pyLower (fs.toPath s).suffix == ".xml") = false := beq_eq_false_iff_ne.mpr hxml
  simp [parse_files, hex, hs, hnd, hf, hx, hext]

/-- C5 witness: a GeoTIFF input data/c.tif with format Native resolves to the
single job with output data/converted.tif. -/
theorem C5_witness :
    parse_files exFS exG (some "data/c.tif") none "Native" =
      Except.ok ([cFile], [{ parent := ["data"], stem := "converted", suffix := ".tif" }]) :=
  C5_single_file_default_output exFS exG "data/c.tif" "Native" "tif"
    rfl (by decide) rfl rfl (by decide) rfl

/-- C9: a directory input whose output is absent (a TypeError inside the Path
constructor) or not an existing directory (the assert) makes file resolution
fail; the result is the same error for every GDAL environment, so no dataset
is opened and no per file work happens. -/
theorem C9_dir_requires_dir_output (fs : FSEnv) (s : String) (output : Option String)
    (format : String)
    (hex : fs.pexists (fs.toPath s) = true) (hne : s ≠ "")
    (hdir : fs.is_dir (fs.toPath s) = true)
    (hbad : output = none ∨ ∃ o, output = some o ∧ fs.is_dir (fs.toPath o) = false) :
    ∀ g : GDALEnv, parse_files fs g (some s) output format =
      Except.error (match output with
        | none => Err.typeError
        | some _ => Err.assertionError "output must be an existing directory") := by
  intro g
  have hs : (s == "") = false := beq_eq_false_iff_ne.mpr hne
  rcases hbad with hnone | ⟨o, ho, hod⟩
  · subst hnone
    simp [parse_files, hex, hs, hdir]
  · subst ho
    simp [parse_files, hex, hs, hdir, hod]

/-- C9 witness: the example input directory with no output at all fails with
the TypeError of Path None, for the example GDAL environment. -/
theorem C9_witness :
    parse_files exFS exG (some "in") none "Native" = Except.error Err.typeError :=
  C9_dir_requires_dir_output exFS "in" none "Native" rfl (by decide) rfl (Or.inl rfl) exG

/-- The directory output builder maps the per file output path over the kept
files when every extension resolution succeeds. -/
theorem buildOutpaths_eq (g : GDALEnv) (format : String) (odir : PyPath)
    (extOf : PyPath → String) (l : List PyPath)
    (h : ∀ f ∈ l, get_extension g f format = Except.ok (extOf f)) :
    buildOutpaths g format odir l =
      Except.ok (l.map (fun f => odir.child (f.stem ++ "_converted") ("." ++ extOf f))) := by
  induction l with
  | nil => rfl
  | cons f t ih =>
    have hf := h f (List.mem_cons_self f t)
    have ht := ih (fun x hx => h x (List.mem_cons_of_mem f hx))
    unfold buildOutpaths
    rw [hf, ht]
    rfl

/-- C6: for a directory input with an existing output directory, the resolved
input list is exactly the recursive listing filtered of directories and of
files with an .xml suffix (case insensitively); a path is in it iff it is a
non directory non xml entry of the listing, it appears exactly once when the
listing has no duplicates, and position by position the output list pairs it
with output dir slash stem underscore converted dot ext with the extension
resolved per file. -/
theorem C6_directory_resolution (fs : FSEnv) (g : GDALEnv) (s so format : String)
    (extOf : PyPath → String)
    (hex : fs.pexists (fs.toPath s) = true) (hne : s ≠ "")
    (hdir : fs.is_dir (fs.toPath s) = true)
    (hodir : fs.is_dir (fs.toPath so) = true)
    (hext : ∀ f ∈ (fs.rglob (fs.toPath s)).filter
        (fun f => !(pyLower f.suffix == ".xml" || fs.is_dir f)),
      get_extension g f format = Except.ok (extOf f)) :
    parse_files fs g (some s) (some so) format =
      Except.ok
        ((fs.rglob (fs.toPath s)).filter
            (fun f => !(pyLower f.suffix == ".xml" || fs.is_dir f)),
         ((fs.rglob (fs.toPath s)).filter
            (fun f => !(pyLower f.suffix == ".xml" || fs.is_dir f))).map
           (fun f => (fs.toPath so).child (f.stem ++ "_converted") ("." ++ extOf f))) ∧
    (∀ q : PyPath,
      q ∈ (fs.rglob (fs.toPath s)).filter
          (fun f => !(pyLower f.suffix == ".xml" || fs.is_dir f)) ↔
        (q ∈ fs.rglob (fs.toPath s) ∧ fs.is_dir q = false ∧ pyLower q.suffix ≠ ".xml")) ∧
    ((fs.rglob (fs.toPath s)).Nodup →
      ∀ q ∈ (fs.rglob (fs.toPath s)).filter
          (fun f => !(pyLower f.suffix == ".xml" || fs.is_dir f)),
        ((fs.rglob (fs.toPath s)).filter
          (fun f => !(pyLower f.suffix == ".xml" || fs.is_dir f))).count q = 1) := by
  refine ⟨?_, ?_, ?_⟩
  · have hs : (s == "") = false := beq_eq_false_iff_ne.mpr hne
    have hb := buildOutpaths_eq g format (fs.toPath so) extOf _ hext
    simp only [Bool.not_or] at hb
    simp [parse_files, hex, hs, hdir, hodir]
    rw [hb]
  · intro q
    simp only [List.mem_filter, Bool.not_eq_true', Bool.or_eq_false_iff,
      beq_eq_false_iff_ne]
    tauto
  · intro hnd q hq
    exact List.count_eq_one_of_mem (List.Nodup.filter _ hnd) hq

/-- C6 witness: the example directory holds a.tif, a.XML and b.png; the xml
sidecar is skipped and the two kept files map, in order, to out slash
a_converted.tif and out slash b_converted.png. -/
theorem C6_witness :
    parse_files exFS exG (some "in") (some "out") "Native" =
      Except.ok ([aTif, bPng],
        [{ parent := ["out"], stem := "a_converted", suffix := ".tif" },
         { parent := ["out"], stem := "b_converted", suffix := ".png" }]) := by
  have h := (C6_directory_resolution exFS exG "in" "out" "Native"
      (fun f => if f = aTif then "tif" else "png")
      rfl (by decide) rfl rfl (by decide)).1
  exact h.trans (by decide)

/-- C1: the claim says that with a directory input and format Native every
translate call receives the driver description of its own source dataset.
The code instead writes the first resolved description back into the shared
args namespace, so the second file of a mixed format directory, a PNG whose
driver description is PNG, is translated with format GTiff, the description
resolved for the first file; only the output file name keeps the per file
extension.  This theorem evaluates the embedded main on such a directory. -/
theorem C1_native_format_not_per_file :
    main exFS exG argsC1 =
      Except.ok
        [{ dest := { parent := ["out"], stem := "a_converted", suffix := ".tif" },
           options := { format := "GTiff", outputType := 1, bandList := [1],
                        scaleParams := [[10, 200, 0, 255]] } },
         { dest := { parent := ["out"], stem := "b_converted", suffix := ".png" },
           options := { format := "GTiff", outputType := 1, bandList := [1],
                        scaleParams := [[0, 100, 0, 255]] } }] ∧
    exG.openDS bPng = some dsB ∧ dsB.driver.description = "PNG" :=
  ⟨rfl, rfl, rfl⟩

/-- C8: for a raster driver that declares no extension the source raises its
AssertionError, but for a driver without the raster capability the local
variable ext is never assigned, so the truthiness test raises an
UnboundLocalError instead of the assertion style error the claim states. -/
theorem C8_nonraster_unbound_local :
    get_extension exG cFile "VEC" = Except.error Err.unboundLocalError ∧
    get_extension exG cFile "MEM" =
      Except.error (Err.assertionError "Specified output format is not a raster format") :=
  ⟨rfl, rfl⟩

/-
Error classification lemmas: which exception kinds each function can raise.
-/

/-- getScaleParams only raises the statistics unpacking ValueError. -/
theorem getScaleParams_error_eq (ds : Dataset) (r : List ℚ) (e : Err)
    (h : getScaleParams ds r = Except.error e) : e = Err.valueError := by
  unfold getScaleParams at h
  split at h
  · simp at h
  · injection h with h1
    exact h1.symm

/-- selectScale only raises IndexError. -/
theorem selectScale_error_eq (l : List (List ℚ)) (bs : List Int) (e : Err)
    (h : selectScale l bs = Except.error e) : e = Err.indexError := by
  induction bs with
  | nil => simp [selectScale] at h
  | cons b t ih =>
    unfold selectScale at h
    split at h
    · injection h with h1
      exact h1.symm
    · split at h
      · rename_i e2 heq
        injection h with h1
        subst h1
        exact ih heq
      · simp at h

/-- get_dtype only raises the None dereference AttributeError. -/
theorem get_dtype_error_eq (g : GDALEnv) (p : PyPath) (e : Err)
    (h : get_dtype g p = Except.error e) : e = Err.attributeError := by
  unfold get_dtype at h
  split at h
  · injection h with h1
    exact h1.symm
  · split at h
    · injection h with h1
      exact h1.symm
    · simp at h

/-- parse_bands only raises the int parsing ValueError. -/
theorem parse_bands_error_eq (b : Option String) (e : Err)
    (h : parse_bands b = Except.error e) : e = Err.valueError := by
  unfold parse_bands at h
  split at h
  · simp at h
  · split at h
    · simp at h
    · split at h
      · injection h with h1
        exact h1.symm
      · simp at h

/-- The extension resolver never raises the range table KeyError. -/
theorem get_extension_no_bitrange (g : GDALEnv) (p : PyPath) (format k : String) :
    get_extension g p format ≠ Except.error (Err.keyErrorBitrange k) := by
  intro h
  unfold get_extension at h
  split at h
  · rename_i e heq
    injection h with h1
    subst h1
    split at heq
    · simp at heq
    · split at heq
      · simp at heq
      · simp at heq
  · simp at h
  · split at h
    · simp at h
    · split at h
      · simp at h
      · split at h
        · simp at h
        · simp at h

/-- The directory output builder never raises the range table KeyError. -/
theorem buildOutpaths_no_bitrange (g : GDALEnv) (format : String) (odir : PyPath)
    (l : List PyPath) (k : String) :
    buildOutpaths g format odir l ≠ Except.error (Err.keyErrorBitrange k) := by
  induction l with
  | nil => simp [buildOutpaths]
  | cons f t ih =>
    intro h
    unfold buildOutpaths at h
    split at h
    · rename_i e heq
      injection h with h1
      subst h1
      exact get_extension_no_bitrange g f format k heq
    · split at h
      · rename_i ext hext e heq
        injection h with h1
        subst h1
        exact ih heq
      · simp at h

/-- File resolution never raises the range table KeyError. -/
theorem parse_files_no_bitrange (fs : FSEnv) (g : GDALEnv) (input output : Option String)
    (format k : String) :
    parse_files fs g input output format ≠ Except.error (Err.keyErrorBitrange k) := by
  intro h
  unfold parse_files at h
  split at h
  · simp at h
  · split at h
    · split at h
      · split at h
        · simp at h
        · split at h
          · split at h
            · rename_i e heq
              injection h with h1
              subst h1
              exact buildOutpaths_no_bitrange g format _ _ k heq
            · simp at h
          · simp at h
      · split at h
        · split at h
          · rename_i e heq
            injection h with h1
            subst h1
            exact get_extension_no_bitrange g _ format k heq
          · split at h
            · simp at h
            · simp at h
        · simp at h
    · simp at h

/-- Option setup never raises the range table KeyError. -/
theorem setupOptions_no_bitrange (ds : Dataset) (f t : String) (r : List ℚ)
    (b : Option (List Int)) (k : String) :
    setupOptions ds f t r b ≠ Except.error (Err.keyErrorBitrange k) := by
  intro h
  unfold setupOptions at h
  split at h
  · rename_i e heq
    injection h with h1
    subst h1
    have := getScaleParams_error_eq ds r _ heq
    simp at this
  · split at h
    · rename_i e heq
      injection h with h1
      subst h1
      have := selectScale_error_eq _ _ _ heq
      simp at this
    · split at h
      · simp at h
      · simp at h

/-- When TYPE_DICT has no entry for the output type, option setup cannot
succeed (the lookup is the last step, after statistics and band selection,
all of which can only fail). -/
theorem setupOptions_not_ok (ds : Dataset) (f t : String) (r : List ℚ)
    (b : Option (List Int)) (htd : TYPE_DICT t = none) (opts : TranslateOptions) :
    setupOptions ds f t r b ≠ Except.ok opts := by
  intro h
  unfold setupOptions at h
  split at h
  · simp at h
  · split at h
    · simp at h
    · split at h
      · simp at h
      · rename_i code heqc
        rw [htd] at heqc
        simp at heqc

/-- The two lookup tables of the source have the same eight keys. -/
theorem BITRANGE_none_iff (s : String) : BITRANGE s = none ↔ TYPE_DICT s = none := by
  unfold BITRANGE TYPE_DICT
  split_ifs <;> simp

/-- An ok result of getScaleParams consists of tuples that are a pair of
statistics followed by the output range. -/
theorem getScaleParams_ok_shape (ds : Dataset) (r : List ℚ) (v : List (List ℚ))
    (h : getScaleParams ds r = Except.ok v) :
    ∀ s ∈ v, ∃ m M : ℚ, s = m :: M :: r := by
  unfold getScaleParams at h
  split at h
  · injection h with h1
    subst h1
    intro s hs
    obtain ⟨p, hp, hpe⟩ := List.mem_map.mp hs
    obtain ⟨q, hq, hqe⟩ := List.mem_map.mp hp
    refine ⟨q.1, q.2, ?_⟩
    rw [← hpe, ← hqe]
    rfl
  · simp at h

/-- Every selected scale entry is an entry of the full scale list. -/
theorem selectScale_mem (l : List (List ℚ)) (bs : List Int) (out : List (List ℚ))
    (h : selectScale l bs = Except.ok out) : ∀ s ∈ out, s ∈ l := by
  induction bs generalizing out with
  | nil =>
    unfold selectScale at h
    injection h with h1
    subst h1
    intro s hs
    simp at hs
  | cons b t ih =>
    simp only [selectScale] at h
    cases hpg : pyGet l (b - 1) with
    | none => simp [hpg] at h
    | some s0 =>
      cases hsel : selectScale l t with
      | error e => simp [hpg, hsel] at h
      | ok others =>
        simp only [hpg, hsel, Except.ok.injEq] at h
        subst h
        intro x hx
        rcases List.mem_cons.mp hx with hx1 | hx2
        · subst hx1
          exact pyGet_mem l (b - 1) x hpg
        · exact ih others hsel x hx2

/-- Scale entries of a successful option setup with output range lo, hi are
4-tuples ending in lo, hi. -/
theorem setupOptions_ok_shape (ds : Dataset) (f t : String) (lo hi : ℚ)
    (b : Option (List Int)) (opts : TranslateOptions)
    (h : setupOptions ds f t [lo, hi] b = Except.ok opts) :
    ∀ s ∈ opts.scaleParams, ∃ m M : ℚ, s = [m, M, lo, hi] := by
  unfold setupOptions at h
  split at h
  · simp at h
  · rename_i scale0 heq0
    split at h
    · simp at h
    · rename_i sel heqsel
      split at h
      · simp at h
      · rename_i code heqcode
        injection h with h1
        subst h1
        intro s hs
        have hmem : s ∈ scale0 := selectScale_mem scale0 _ sel heqsel s hs
        exact getScaleParams_ok_shape ds [lo, hi] scale0 heq0 s hmem

/-- With an explicit output range the per file loop never raises the range
table KeyError, and every scale tuple of every issued translate call ends in
the explicit pair, whatever the output type and however format and dtype are
mutated along the way. -/
theorem mainLoop_explicit_range (g : GDALEnv) (lo hi : ℚ) (bands_out : Option (List Int)) :
    ∀ (jobs : List (PyPath × PyPath)) (fmt dtype : String),
      (∀ k, mainLoop g fmt dtype (some (lo, hi)) bands_out jobs ≠
          Except.error (Err.keyErrorBitrange k)) ∧
      (∀ calls, mainLoop g fmt dtype (some (lo, hi)) bands_out jobs = Except.ok calls →
          ∀ c ∈ calls, ∀ s ∈ c.options.scaleParams, ∃ m M : ℚ, s = [m, M, lo, hi]) := by
  intro jobs
  induction jobs with
  | nil =>
    intro fmt dtype
    constructor
    · intro k h
      simp [mainLoop] at h
    · intro calls h c hc
      simp only [mainLoop, Except.ok.injEq] at h
      subst h
      simp at hc
  | cons job rest ih =>
    intro fmt dtype
    obtain ⟨entry, out⟩ := job
    cases hod : g.openDS entry with
    | none =>
      constructor
      · intro k h
        simp [mainLoop, hod] at h
      · intro calls h
        simp [mainLoop, hod] at h
    | some ds =>
      cases hdt : (if pyLower dtype = "native" then get_dtype g entry
                   else (Except.ok dtype : Except Err String)) with
      | error e =>
        have he : e = Err.attributeError := by
          split at hdt
          · exact get_dtype_error_eq g entry e hdt
          · simp at hdt
        subst he
        constructor
        · intro k h
          simp [mainLoop, hod, hdt] at h
        · intro calls h
          simp [mainLoop, hod, hdt] at h
      | ok dtype1 =>
        cases hso : setupOptions ds
            (if pyLower fmt = "native" then ds.driver.description else fmt)
            dtype1 [lo, hi] bands_out with
        | error e =>
          constructor
          · intro k h
            simp [mainLoop, hod, hdt, hso] at h
            exact setupOptions_no_bitrange ds _ dtype1 [lo, hi] bands_out k (h ▸ hso)
          · intro calls h
            simp [mainLoop, hod, hdt, hso] at h
        | ok opts =>
          cases hrec : mainLoop g
              (if pyLower fmt = "native" then ds.driver.description else fmt)
              dtype1 (some (lo, hi)) bands_out rest with
          | error e =>
            constructor
            · intro k h
              simp [mainLoop, hod, hdt, hso, hrec] at h
              exact (ih _ dtype1).1 k (h ▸ hrec)
            · intro calls h
              simp [mainLoop, hod, hdt, hso, hrec] at h
          | ok calls0 =>
            constructor
            · intro k h
              simp [mainLoop, hod, hdt, hso, hrec] at h
            · intro calls h
              simp [mainLoop, hod, hdt, hso, hrec] at h
              subst h
              intro c hc
              rcases List.mem_cons.mp hc with hc1 | hc2
              · subst hc1
                intro s hs
                exact setupOptions_ok_shape ds _ dtype1 lo hi bands_out opts hso s hs
              · exact (ih _ dtype1).2 calls0 hrec c hc2

/-- C4: when an explicit output range lo, hi is supplied, the run never
raises the range table KeyError (the fixed type to range table is not
consulted), and the target half of every scale tuple of every issued
translate call is exactly lo, hi, for every band and whatever the output
pixel type. -/
theorem C4_explicit_range_overrides (fs : FSEnv) (g : GDALEnv) (args : Args) (lo hi : ℚ)
    (hr : args.range = some (lo, hi)) :
    (∀ k, main fs g args ≠ Except.error (Err.keyErrorBitrange k)) ∧
    (∀ calls, main fs g args = Except.ok calls →
        ∀ c ∈ calls, ∀ s ∈ c.options.scaleParams, ∃ m M : ℚ, s = [m, M, lo, hi]) := by
  cases hpf : parse_files fs g args.input args.output args.format with
  | error e =>
    constructor
    · intro k h
      simp only [main, hpf, Except.error.injEq] at h
      subst h
      exact parse_files_no_bitrange fs g args.input args.output args.format k hpf
    · intro calls h
      simp [main, hpf] at h
  | ok pair =>
    obtain ⟨files, outfiles⟩ := pair
    cases hpb : parse_bands args.bands with
    | error e =>
      constructor
      · intro k h
        simp only [main, hpf, hpb, Except.error.injEq] at h
        subst h
        have := parse_bands_error_eq args.bands _ hpb
        simp at this
      · intro calls h
        simp [main, hpf, hpb] at h
    | ok bands_out =>
      have hml := mainLoop_explicit_range g lo hi bands_out (files.zip outfiles)
        args.format args.dtype
      constructor
      · intro k h
        simp only [main, hpf, hpb, hr] at h
        exact hml.1 k h
      · intro calls h
        simp only [main, hpf, hpb, hr] at h
        exact hml.2 calls h

/-- C4 witness: with an explicit range 0 to 1000 the example run does not
fail on the range table for the key Byte. -/
theorem C4_witness :
    main exFS exG argsC4 ≠ Except.error (Err.keyErrorBitrange "Byte") :=
  (C4_explicit_range_overrides exFS exG argsC4 0 1000 rfl).1 "Byte"

/-- C7 amended: an output type that is not one of the eight recognized names
(and not the special value Native) makes the run fail while processing the
first file, before any translate call: no call list is ever produced, and
when no explicit output range is supplied (and the first file opens) the
failure is exactly the range table KeyError; with an explicit range the
failure happens inside option setup instead (type table lookup, or an
earlier statistics or band selection error).  This amends the original
claim, which attributed the failure to the range table lookup for every
input including those with an explicit range. -/
theorem C7_amended_table_lookup_failure (g : GDALEnv) (fmt dtype : String)
    (range : Option (ℚ × ℚ)) (bands_out : Option (List Int))
    (entry out : PyPath) (rest : List (PyPath × PyPath))
    (hnat : pyLower dtype ≠ "native") (htd : TYPE_DICT dtype = none) :
    (∀ calls, mainLoop g fmt dtype range bands_out ((entry, out) :: rest) ≠
        Except.ok calls) ∧
    (range = none → ∀ ds, g.openDS entry = some ds →
      mainLoop g fmt dtype range bands_out ((entry, out) :: rest) =
        Except.error (Err.keyErrorBitrange dtype)) := by
  have hbr : BITRANGE dtype = none := (BITRANGE_none_iff dtype).mpr htd
  constructor
  · intro calls h
    cases hod : g.openDS entry with
    | none => simp [mainLoop, hod] at h
    | some ds =>
      cases range with
      | none => simp [mainLoop, hod, hnat, hbr] at h
      | some lohi =>
        cases hso : setupOptions ds
            (if pyLower fmt = "native" then ds.driver.description else fmt)
            dtype [lohi.1, lohi.2] bands_out with
        | error e => simp [mainLoop, hod, hnat, hso] at h
        | ok opts =>
          exact setupOptions_not_ok ds _ dtype [lohi.1, lohi.2] bands_out htd opts hso
  · rintro rfl ds hod
    simp [mainLoop, hod, hnat, hbr]

/-- C7 witness: output type Foo with no explicit range fails with the range
table KeyError on the first job, before any translate call. -/
theorem C7_witness :
    mainLoop exG "GTiff" "Foo" none none [(cFile, outDir)] =
      Except.error (Err.keyErrorBitrange "Foo") :=
  (C7_amended_table_lookup_failure exG "GTiff" "Foo" none none cFile outDir []
    (by decide) rfl).2 rfl dsA rfl

/-- C7 counterexample to the original claim: with an explicit range 0 to
1000, the unrecognized output type Foo fails on the pixel type table lookup
inside option setup, not on the range table lookup the claim names. -/
theorem C7_counterexample :
    main exFS exG argsC7 = Except.error (Err.keyErrorTypeDict "Foo") ∧
    Err.keyErrorTypeDict "Foo" ≠ Err.keyErrorBitrange "Foo" :=
  ⟨rfl, by decide⟩

end GdalConvert
